import Mathlib

/-!
Shallow embedding of the UPU S10 barcode generator (src/gen.py).

Python strings are modelled as `List Char`, restricted to ASCII text:
the Python predicates `str.isdigit`, `str.isalpha`, `str.isalnum` are
modelled by the corresponding ASCII character classes, and `str.upper`
by ASCII upper-casing.  Image rendering (`generate_upu_barcode`) is a
call into third-party libraries and is outside the embedded core; the
batch loop is modelled up to the identifier it assembles in each
iteration.
-/

/-- Python `str.isdigit` (ASCII model): nonempty and all decimal digits. -/
def pyIsdigit (s : List Char) : Bool := !s.isEmpty && s.all Char.isDigit

/-- Python `str.isalpha` (ASCII model): nonempty and all letters. -/
def pyIsalpha (s : List Char) : Bool := !s.isEmpty && s.all Char.isAlpha

/-- Python `str.isalnum` (ASCII model): nonempty and all letters or digits. -/
def pyIsalnum (s : List Char) : Bool := !s.isEmpty && s.all Char.isAlphanum

/-- Python `int(digit)` for a single digit character. -/
def digitVal (c : Char) : Nat := c.toNat - 48

/-- gen.py line 41: the fixed position weights `[8, 6, 4, 2, 3, 5, 9, 7]`. -/
def weights : List Nat := [8, 6, 4, 2, 3, 5, 9, 7]

/-- gen.py line 43: `sum(int(digit) * weight for digit, weight in zip(serial_number, weights))`. -/
def weightedSum (s : List Char) : Nat :=
  (List.zipWith (fun c w => digitVal c * w) s weights).sum

/-- gen.py lines 44-51: the checksum value computed after the input guard,
`11 - (s % 11)` with the overrides `10 -> 0` and `11 -> 5`. -/
def s10_checksum (s : List Char) : Nat :=
  let checksum := 11 - weightedSum s % 11
  if checksum = 10 then 0 else if checksum = 11 then 5 else checksum

/-- gen.py lines 25-51: `calculate_s10_checksum`, raising `ValueError`
(modelled as `Except.error`) when the guard on line 38 fires. -/
def calculate_s10_checksum (serial_number : List Char) : Except String Nat :=
  if ¬ pyIsdigit serial_number = true ∨ serial_number.length ≠ 8 then
    Except.error "Serial number must be an 8-digit string."
  else
    Except.ok (s10_checksum serial_number)

/-- Python slice `s[a:b]` for natural bounds `a ≤ b` (clamps, never raises). -/
def pySlice (s : List Char) (a b : Nat) : List Char := (s.drop a).take (b - a)

/-- gen.py lines 53-69: `format_s10_text`. -/
def format_s10_text (s10_id : List Char) : List Char :=
  pySlice s10_id 0 2 ++ [' '] ++ pySlice s10_id 2 6 ++ [' '] ++
    pySlice s10_id 6 10 ++ [' '] ++ pySlice s10_id 10 11 ++ [' '] ++ pySlice s10_id 11 13

/-- Fuel-driven accumulator loop producing the decimal digit characters of `n`,
most significant first.  The fuel argument only bounds the recursion. -/
def toDecChars : Nat → Nat → List Char → List Char
  | 0, _, acc => acc
  | fuel + 1, n, acc =>
    if n < 10 then Char.ofNat (48 + n % 10) :: acc
    else toDecChars fuel (n / 10) (Char.ofNat (48 + n % 10) :: acc)

/-- Python `str(n)` for a natural number. -/
def pyStr (n : Nat) : List Char := toDecChars (n + 1) n []

/-- Python `str.zfill(w)`: left-pad with `0` up to width `w`. -/
def zfill (s : List Char) (w : Nat) : List Char :=
  List.replicate (w - s.length) '0' ++ s

/-- Python `str.upper` (ASCII model). -/
def pyUpper (s : List Char) : List Char := s.map Char.toUpper

/-- Python `int(s)` on a decimal digit string. -/
def decimalVal (s : List Char) : Nat := s.foldl (fun acc c => acc * 10 + digitVal c) 0

/-- gen.py lines 221-236, the generation loop: iteration `i` of `range(quantity)`
handles serial value `start_sn + i`, zero-fills it to width 8, breaks when the
string has outgrown 8 characters, and otherwise assembles
`f"{si}{sn_str}{cs}{cc}"`.  Rendering the PNG is outside the embedded core.
A checksum exception would abort the run (lines 238-240); the error branch is
kept so the model can be traced against the code, and is proved unreachable. -/
def runBatch (si cc : List Char) (start_sn : Nat) : Nat → Nat → List (List Char)
  | 0, _ => []
  | q + 1, i =>
    let sn_str := zfill (pyStr (start_sn + i)) 8
    if sn_str.length > 8 then []
    else
      match calculate_s10_checksum sn_str with
      | Except.error _ => []
      | Except.ok cs => (si ++ sn_str ++ pyStr cs ++ cc) :: runBatch si cc start_sn q (i + 1)

/-- gen.py lines 155-242: `main` after argument parsing.  The four validation
checks (lines 194-208) print to standard error and `sys.exit(1)` before any
output; this is modelled by returning `Except.error` with the message and no
identifier list.  On valid input the result is the list of identifiers the
generation loop assembles. -/
def mainRun (si sn cc : List Char) (quantity : Int) : Except String (List (List Char)) :=
  if si.length ≠ 2 ∨ ¬ pyIsalpha si = true then
    Except.error "Service indicator must be 2 alphabetic characters."
  else if sn.length ≠ 8 ∨ ¬ pyIsdigit sn = true then
    Except.error "Starting serial number must be 8 digits."
  else if cc.length ≠ 2 ∨ ¬ pyIsalnum cc = true then
    Except.error "Country/regional code must be 2 alphanumeric characters."
  else if quantity ≤ 0 then
    Except.error "Quantity must be a positive integer."
  else
    Except.ok (runBatch (pyUpper si) (pyUpper cc) (decimalVal sn) quantity.toNat 0)

/-- The identifier the loop assembles for serial value `n`: zero-filled serial,
checksum recomputed from that serial string, concatenated between the
upper-cased service indicator and destination code. -/
def mkId (si cc : List Char) (n : Nat) : List Char :=
  si ++ zfill (pyStr n) 8 ++ pyStr (s10_checksum (zfill (pyStr n) 8)) ++ cc

/-- A nonempty all-digit string satisfies the Python `isdigit` test. -/
theorem pyIsdigit_of_digits {s : List Char} (hne : s ≠ [])
    (hd : s.all Char.isDigit = true) : pyIsdigit s = true := by
  have : s.isEmpty = false := by
    cases s with
    | nil => exact absurd rfl hne
    | cons a t => rfl
  simp [pyIsdigit, this, hd]

/-- On an 8-character all-digit string the guard does not fire. -/
theorem checksum_ok {s : List Char} (h8 : s.length = 8)
    (hd : s.all Char.isDigit = true) :
    calculate_s10_checksum s = Except.ok (s10_checksum s) := by
  have hne : s ≠ [] := by
    intro hnil
    rw [hnil] at h8
    exact absurd h8 (by decide)
  unfold calculate_s10_checksum
  rw [if_neg]
  simp [pyIsdigit_of_digits hne hd, h8]

/-- The checksum value is always at most 9. -/
theorem s10_checksum_le_nine (s : List Char) : s10_checksum s ≤ 9 := by
  have hm : weightedSum s % 11 < 11 := Nat.mod_lt _ (by norm_num)
  simp only [s10_checksum]
  split_ifs <;> omega

/-- C1: for an 8-digit string the function returns `11 - (s % 11)` for the
weighted sum `s` taken left-to-right with weights `[8, 6, 4, 2, 3, 5, 9, 7]`,
with raw value `10` replaced by `0`, raw value `11` replaced by `5`, and any
other raw value returned unchanged. -/
theorem checksum_formula (c0 c1 c2 c3 c4 c5 c6 c7 : Char)
    (h : [c0, c1, c2, c3, c4, c5, c6, c7].all Char.isDigit = true) :
    calculate_s10_checksum [c0, c1, c2, c3, c4, c5, c6, c7] =
      Except.ok
        (if 11 - (8 * digitVal c0 + 6 * digitVal c1 + 4 * digitVal c2 + 2 * digitVal c3 +
              3 * digitVal c4 + 5 * digitVal c5 + 9 * digitVal c6 + 7 * digitVal c7) % 11 = 10
         then 0
         else if 11 - (8 * digitVal c0 + 6 * digitVal c1 + 4 * digitVal c2 + 2 * digitVal c3 +
              3 * digitVal c4 + 5 * digitVal c5 + 9 * digitVal c6 + 7 * digitVal c7) % 11 = 11
         then 5
         else 11 - (8 * digitVal c0 + 6 * digitVal c1 + 4 * digitVal c2 + 2 * digitVal c3 +
              3 * digitVal c4 + 5 * digitVal c5 + 9 * digitVal c6 + 7 * digitVal c7) % 11) := by
  have hws : weightedSum [c0, c1, c2, c3, c4, c5, c6, c7] =
      8 * digitVal c0 + 6 * digitVal c1 + 4 * digitVal c2 + 2 * digitVal c3 +
        3 * digitVal c4 + 5 * digitVal c5 + 9 * digitVal c6 + 7 * digitVal c7 := by
    simp [weightedSum, weights]
    ring
  rw [checksum_ok (by rfl) h]
  simp only [s10_checksum, hws]

/-- Witness for C1 at the serial `60000000`. -/
theorem checksum_formula_witness :
    calculate_s10_checksum ['6', '0', '0', '0', '0', '0', '0', '0'] = Except.ok 7 :=
  (checksum_formula '6' '0' '0' '0' '0' '0' '0' '0' (by decide)).trans rfl

/-- C3: on every 8-digit string the checksum returned is between 0 and 9. -/
theorem checksum_range (s : List Char) (h8 : s.length = 8)
    (hd : s.all Char.isDigit = true) :
    ∃ n, calculate_s10_checksum s = Except.ok n ∧ n ≤ 9 :=
  ⟨s10_checksum s, checksum_ok h8 hd, s10_checksum_le_nine s⟩

/-- Witness for C3 at the serial `60000000`. -/
theorem checksum_range_witness :
    ∃ n, calculate_s10_checksum "60000000".data = Except.ok n ∧ n ≤ 9 :=
  checksum_range "60000000".data (by decide) (by decide)

/-- C4: serial `60000000` has checksum 7, and a batch of one with indicator
`HF` and destination `CN` assembles exactly the identifier `HF600000007CN`. -/
theorem known_vector :
    calculate_s10_checksum "60000000".data = Except.ok 7 ∧
      mainRun "HF".data "60000000".data "CN".data 1 =
        Except.ok ["HF600000007CN".data] :=
  ⟨rfl, rfl⟩

/-- C5: `calculate_s10_checksum` raises exactly when its input is not an
8-character string of (ASCII) decimal digits, and returns normally otherwise. -/
theorem checksum_error_iff (s : List Char) :
    (∃ e, calculate_s10_checksum s = Except.error e) ↔
      (s.length ≠ 8 ∨ ¬ s.all Char.isDigit = true) := by
  by_cases h8 : s.length = 8
  · by_cases hd : s.all Char.isDigit = true
    · rw [checksum_ok h8 hd]
      apply iff_of_false
      · rintro ⟨e, he⟩
        exact Except.noConfusion he
      · rintro (hc | hc)
        · exact hc h8
        · exact hc hd
    · have hp : ¬ pyIsdigit s = true := by
        intro hp
        simp only [pyIsdigit, Bool.and_eq_true] at hp
        exact hd hp.2
      unfold calculate_s10_checksum
      rw [if_pos (Or.inl hp)]
      exact iff_of_true ⟨_, rfl⟩ (Or.inr hd)
  · unfold calculate_s10_checksum
    rw [if_pos (Or.inr h8)]
    exact iff_of_true ⟨_, rfl⟩ (Or.inl h8)

/-- A list of length 13 is a literal of 13 elements. -/
theorem list_len13_eq (s : List Char) (h : s.length = 13) :
    ∃ c0 c1 c2 c3 c4 c5 c6 c7 c8 c9 c10 c11 c12 : Char,
      s = [c0, c1, c2, c3, c4, c5, c6, c7, c8, c9, c10, c11, c12] :=
  match s, h with
  | [c0, c1, c2, c3, c4, c5, c6, c7, c8, c9, c10, c11, c12], _ =>
    ⟨c0, c1, c2, c3, c4, c5, c6, c7, c8, c9, c10, c11, c12, rfl⟩

/-- C6: on a 13-character identifier the formatter emits the same characters
split into five space-separated groups of lengths 2, 4, 4, 1, 2, with no other
transformation; in particular `HF600000007CN` formats as `HF 6000 0000 7 CN`. -/
theorem format_groups :
    (∀ s : List Char, s.length = 13 →
      ∃ g1 g2 g3 g4 g5 : List Char,
        s = g1 ++ g2 ++ g3 ++ g4 ++ g5 ∧
        g1.length = 2 ∧ g2.length = 4 ∧ g3.length = 4 ∧ g4.length = 1 ∧ g5.length = 2 ∧
        format_s10_text s = g1 ++ [' '] ++ g2 ++ [' '] ++ g3 ++ [' '] ++ g4 ++ [' '] ++ g5) ∧
    format_s10_text "HF600000007CN".data = "HF 6000 0000 7 CN".data := by
  constructor
  · intro s h
    obtain ⟨c0, c1, c2, c3, c4, c5, c6, c7, c8, c9, c10, c11, c12, rfl⟩ := list_len13_eq s h
    exact ⟨[c0, c1], [c2, c3, c4, c5], [c6, c7, c8, c9], [c10], [c11, c12],
      rfl, rfl, rfl, rfl, rfl, rfl, rfl⟩
  · rfl

/-- Witness for C6 at the identifier `HF600000007CN`. -/
theorem format_groups_witness :
    ∃ g1 g2 g3 g4 g5 : List Char,
      "HF600000007CN".data = g1 ++ g2 ++ g3 ++ g4 ++ g5 ∧
      g1.length = 2 ∧ g2.length = 4 ∧ g3.length = 4 ∧ g4.length = 1 ∧ g5.length = 2 ∧
      format_s10_text "HF600000007CN".data =
        g1 ++ [' '] ++ g2 ++ [' '] ++ g3 ++ [' '] ++ g4 ++ [' '] ++ g5 :=
  format_groups.1 "HF600000007CN".data (by decide)

/-- Positional inverse of the formatter: reads the five groups back out of the
17-character display string, skipping the four inserted spaces. -/
def unformat_s10_text (t : List Char) : List Char :=
  pySlice t 0 2 ++ pySlice t 3 7 ++ pySlice t 8 12 ++ pySlice t 13 14 ++ pySlice t 15 17

/-- C10: the formatter is total (Python slicing clamps, so on any input the
output length is `min |s| 13` content characters plus the 4 spaces), and on
13-character identifiers deleting the four inserted spaces recovers the
identifier exactly. -/
theorem format_total_roundtrip :
    (∀ s : List Char, (format_s10_text s).length = min s.length 13 + 4) ∧
    (∀ s : List Char, s.length = 13 → unformat_s10_text (format_s10_text s) = s) := by
  constructor
  · intro s
    simp only [format_s10_text, pySlice, List.length_append, List.length_take,
      List.length_drop, List.length_cons, List.length_nil]
    omega
  · intro s h
    obtain ⟨c0, c1, c2, c3, c4, c5, c6, c7, c8, c9, c10, c11, c12, rfl⟩ := list_len13_eq s h
    rfl

/-- Witness for C10 at the identifier `HF600000007CN`. -/
theorem format_total_roundtrip_witness :
    (format_s10_text "HF600000007CN".data).length = min "HF600000007CN".data.length 13 + 4 ∧
    unformat_s10_text (format_s10_text "HF600000007CN".data) = "HF600000007CN".data :=
  ⟨format_total_roundtrip.1 "HF600000007CN".data,
    format_total_roundtrip.2 "HF600000007CN".data (by decide)⟩

/-- A digit value below 10 yields a decimal digit character. -/
theorem ofNat_digit_isDigit {m : Nat} (h : m < 10) :
    (Char.ofNat (48 + m)).isDigit = true := by
  interval_cases m <;> decide

/-- Length of the digit loop output: one character per decimal digit. -/
theorem toDecChars_length (fuel : Nat) : ∀ n acc, n < fuel →
    (toDecChars fuel n acc).length = Nat.log 10 n + 1 + acc.length := by
  induction fuel with
  | zero => intro n acc h; omega
  | succ fuel ih =>
    intro n acc h
    by_cases h10 : n < 10
    · have hlog : Nat.log 10 n = 0 := Nat.log_eq_zero_iff.mpr (Or.inl h10)
      simp only [toDecChars, if_pos h10, List.length_cons]
      omega
    · have hrec : n / 10 < fuel := by omega
      have h1 : 1 ≤ Nat.log 10 n :=
        (Nat.pow_le_iff_le_log (by norm_num) (by omega)).mp (by simpa using (by omega : 10 ≤ n))
      have hlog : Nat.log 10 (n / 10) = Nat.log 10 n - 1 := Nat.log_div_base 10 n
      simp only [toDecChars, if_neg h10]
      rw [ih (n / 10) _ hrec]
      simp only [List.length_cons]
      omega

/-- Every character the digit loop outputs is a decimal digit. -/
theorem toDecChars_digits (fuel : Nat) : ∀ n acc, acc.all Char.isDigit = true →
    (toDecChars fuel n acc).all Char.isDigit = true := by
  induction fuel with
  | zero => intro n acc h; simpa [toDecChars] using h
  | succ fuel ih =>
    intro n acc h
    have hc : (Char.ofNat (48 + n % 10)).isDigit = true :=
      ofNat_digit_isDigit (Nat.mod_lt _ (by norm_num))
    by_cases h10 : n < 10
    · simp only [toDecChars, if_pos h10, List.all_cons, Bool.and_eq_true]
      exact ⟨hc, h⟩
    · simp only [toDecChars, if_neg h10]
      exact ih _ _ (by simp [List.all_cons, hc, h])

/-- `str(n)` has one character per decimal digit of `n`. -/
theorem pyStr_length (n : Nat) : (pyStr n).length = Nat.log 10 n + 1 := by
  have := toDecChars_length (n + 1) n [] (by omega)
  simpa [pyStr] using this

/-- `str(n)` consists of decimal digit characters. -/
theorem pyStr_digits (n : Nat) : (pyStr n).all Char.isDigit = true :=
  toDecChars_digits (n + 1) n [] rfl

/-- A single-digit value prints as one character. -/
theorem pyStr_len_one {c : Nat} (h : c ≤ 9) : (pyStr c).length = 1 := by
  rw [pyStr_length]
  have : Nat.log 10 c = 0 := Nat.log_eq_zero_iff.mpr (Or.inl (by omega))
  omega

/-- Zero-filling pads up to the requested width. -/
theorem zfill_length (s : List Char) (w : Nat) :
    (zfill s w).length = max w s.length := by
  simp only [zfill, List.length_append, List.length_replicate]
  omega

/-- Zero-filling an all-digit string yields an all-digit string. -/
theorem zfill_digits {s : List Char} (h : s.all Char.isDigit = true) (w : Nat) :
    (zfill s w).all Char.isDigit = true := by
  simp only [zfill, List.all_append, Bool.and_eq_true]
  refine ⟨?_, h⟩
  simp only [List.all_eq_true]
  intro c hc
  rw [List.eq_of_mem_replicate hc]
  decide

/-- Serial values that fit in 8 digits zero-fill to exactly 8 characters. -/
theorem sn_str_length_eq (n : Nat) (h : n < 100000000) :
    (zfill (pyStr n) 8).length = 8 := by
  rw [zfill_length, pyStr_length]
  have hlog : Nat.log 10 n < 8 := by
    rcases Nat.eq_zero_or_pos n with h0 | h0
    · rw [h0, Nat.log_zero_right]; omega
    · refine Nat.log_lt_of_lt_pow (by omega) ?_
      have : (10 : Nat) ^ 8 = 100000000 := by norm_num
      omega
  omega

/-- Serial values of 9 or more digits outgrow the 8-character width. -/
theorem sn_str_length_gt (n : Nat) (h : 100000000 ≤ n) :
    8 < (zfill (pyStr n) 8).length := by
  rw [zfill_length, pyStr_length]
  have h8 : 8 ≤ Nat.log 10 n := by
    refine (Nat.pow_le_iff_le_log (by norm_num) (by omega)).mp ?_
    have : (10 : Nat) ^ 8 = 100000000 := by norm_num
    omega
  omega

/-- Closed form of the generation loop: starting the loop at offset `i` with
`q` iterations left produces exactly the identifiers of the serial values from
`start_sn + i` up to the smaller of the iteration budget and `99999999`. -/
theorem runBatch_eq (si cc : List Char) (start_sn : Nat) :
    ∀ q i, runBatch si cc start_sn q i =
      (List.range (min q (100000000 - (start_sn + i)))).map
        (fun j => mkId si cc (start_sn + i + j)) := by
  intro q
  induction q with
  | zero => intro i; simp [runBatch]
  | succ q ih =>
    intro i
    by_cases hb : start_sn + i < 100000000
    · have h8 : (zfill (pyStr (start_sn + i)) 8).length = 8 := sn_str_length_eq _ hb
      have hok := checksum_ok h8 (zfill_digits (pyStr_digits _) 8)
      simp only [runBatch]
      rw [if_neg (by omega), hok, ih (i + 1)]
      have hmin : min (q + 1) (100000000 - (start_sn + i)) =
          min q (100000000 - (start_sn + (i + 1))) + 1 := by omega
      rw [hmin, List.range_succ_eq_map, List.map_cons, List.map_map]
      simp [mkId]
      intro a _ _
      have harg : start_sn + (i + 1) + a = start_sn + i + (a + 1) := by omega
      rw [harg]
    · have h8 : 8 < (zfill (pyStr (start_sn + i)) 8).length :=
        sn_str_length_gt _ (by omega)
      simp only [runBatch]
      rw [if_pos h8]
      have hz : 100000000 - (start_sn + i) = 0 := by omega
      simp [hz]

/-- C7: on valid inputs the batch produces the identifiers of consecutive
serial values, one per step, zero-filled to 8 digits with the checksum
recomputed from each serial string; it stops before any serial needing more
than 8 digits, producing `min N (100000000 - start)` identifiers, and this is
a normal result, not an error. -/
theorem batch_sequencing (si sn cc : List Char) (q : Int)
    (hsi : si.length = 2) (hsia : pyIsalpha si = true)
    (hsn : sn.length = 8) (hsnd : pyIsdigit sn = true)
    (hcc : cc.length = 2) (hcca : pyIsalnum cc = true)
    (hq : 0 < q) :
    mainRun si sn cc q =
      Except.ok ((List.range (min q.toNat (100000000 - decimalVal sn))).map
        (fun j => mkId (pyUpper si) (pyUpper cc) (decimalVal sn + j))) ∧
    ((List.range (min q.toNat (100000000 - decimalVal sn))).map
        (fun j => mkId (pyUpper si) (pyUpper cc) (decimalVal sn + j))).length =
      min q.toNat (100000000 - decimalVal sn) := by
  constructor
  · unfold mainRun
    rw [if_neg (by simp [hsi, hsia]), if_neg (by simp [hsn, hsnd]),
      if_neg (by simp [hcc, hcca]), if_neg (by omega), runBatch_eq]
    simp
  · simp

/-- Witness for C7: a batch of 3 starting at `12345678`. -/
theorem batch_sequencing_witness :
    mainRun "KA".data "12345678".data "11".data 3 =
      Except.ok ((List.range (min (Int.toNat 3) (100000000 - decimalVal "12345678".data))).map
        (fun j => mkId (pyUpper "KA".data) (pyUpper "11".data) (decimalVal "12345678".data + j))) ∧
    ((List.range (min (Int.toNat 3) (100000000 - decimalVal "12345678".data))).map
        (fun j => mkId (pyUpper "KA".data) (pyUpper "11".data) (decimalVal "12345678".data + j))).length =
      min (Int.toNat 3) (100000000 - decimalVal "12345678".data) :=
  batch_sequencing "KA".data "12345678".data "11".data 3 (by decide) (by decide) (by decide)
    (by decide) (by decide) (by decide) (by decide)

/-- C8: starting at `99999995` with quantity 10 the batch stops after exactly
the 5 identifiers of serials `99999995` to `99999999`, each with the checksum
recomputed from its own serial. -/
theorem batch_stop_at_boundary :
    mainRun "HF".data "99999995".data "CN".data 10 =
      Except.ok ((List.range 5).map (fun j => mkId "HF".data "CN".data (99999995 + j))) ∧
    ((List.range 5).map (fun j => mkId "HF".data "CN".data (99999995 + j))).length = 5 :=
  ⟨rfl, rfl⟩

/-- C2: every identifier a valid batch run assembles is the 13-character
concatenation of the 2-character service indicator, the 8-digit serial, the
1-digit checksum and the 2-character destination code, in that order. -/
theorem identifier_shape (si sn cc : List Char) (q : Int)
    (hsi : si.length = 2) (hsia : pyIsalpha si = true)
    (hsn : sn.length = 8) (hsnd : pyIsdigit sn = true)
    (hcc : cc.length = 2) (hcca : pyIsalnum cc = true)
    (hq : 0 < q) (ids : List (List Char))
    (hids : mainRun si sn cc q = Except.ok ids)
    (id0 : List Char) (hmem : id0 ∈ ids) :
    id0.length = 13 ∧
      ∃ n : Nat, id0 = pyUpper si ++ zfill (pyStr n) 8 ++
          pyStr (s10_checksum (zfill (pyStr n) 8)) ++ pyUpper cc ∧
        (pyUpper si).length = 2 ∧ (zfill (pyStr n) 8).length = 8 ∧
        (pyStr (s10_checksum (zfill (pyStr n) 8))).length = 1 ∧
        (pyUpper cc).length = 2 := by
  unfold mainRun at hids
  rw [if_neg (by simp [hsi, hsia]), if_neg (by simp [hsn, hsnd]),
    if_neg (by simp [hcc, hcca]), if_neg (by omega), runBatch_eq] at hids
  have hids2 : ids = (List.range (min q.toNat (100000000 - (decimalVal sn + 0)))).map
      (fun j => mkId (pyUpper si) (pyUpper cc) (decimalVal sn + 0 + j)) :=
    (Except.ok.inj hids).symm
  rw [hids2] at hmem
  obtain ⟨j, hj, rfl⟩ := List.mem_map.mp hmem
  have hjlt : decimalVal sn + 0 + j < 100000000 := by
    have := List.mem_range.mp hj
    omega
  have h8 : (zfill (pyStr (decimalVal sn + j)) 8).length = 8 := sn_str_length_eq _ hjlt
  have hcs : (pyStr (s10_checksum (zfill (pyStr (decimalVal sn + j)) 8))).length = 1 :=
    pyStr_len_one (s10_checksum_le_nine _)
  refine ⟨?_, decimalVal sn + j, rfl, ?_, h8, hcs, ?_⟩
  · simp [mkId, pyUpper, h8, hcs, hsi, hcc]
  · simp [pyUpper, hsi]
  · simp [pyUpper, hcc]

/-- Witness for C2 at the single-identifier batch producing `HF600000007CN`. -/
theorem identifier_shape_witness :
    "HF600000007CN".data.length = 13 ∧
      ∃ n : Nat, "HF600000007CN".data = pyUpper "HF".data ++ zfill (pyStr n) 8 ++
          pyStr (s10_checksum (zfill (pyStr n) 8)) ++ pyUpper "CN".data ∧
        (pyUpper "HF".data).length = 2 ∧ (zfill (pyStr n) 8).length = 8 ∧
        (pyStr (s10_checksum (zfill (pyStr n) 8))).length = 1 ∧
        (pyUpper "CN".data).length = 2 :=
  identifier_shape "HF".data "60000000".data "CN".data 1 (by decide) (by decide) (by decide)
    (by decide) (by decide) (by decide) (by decide) ["HF600000007CN".data] rfl
    "HF600000007CN".data (List.mem_singleton_self _)

/-- C9: the CLI validation fails with an error, producing no identifiers,
exactly when the service indicator is not 2 alphabetic characters, the serial
is not 8 digits, the destination code is not 2 alphanumeric characters, or the
quantity is not positive; in particular indicator `A1`, 7-digit serial
`1234567`, code `C!` and quantity 0 are each rejected. -/
theorem validation_rejects :
    (∀ si sn cc : List Char, ∀ q : Int,
      (∃ e, mainRun si sn cc q = Except.error e) ↔
        ¬(si.length = 2 ∧ pyIsalpha si = true ∧ sn.length = 8 ∧ pyIsdigit sn = true ∧
          cc.length = 2 ∧ pyIsalnum cc = true ∧ 0 < q)) ∧
    mainRun "A1".data "60000000".data "CN".data 5 =
      Except.error "Service indicator must be 2 alphabetic characters." ∧
    mainRun "HF".data "1234567".data "CN".data 5 =
      Except.error "Starting serial number must be 8 digits." ∧
    mainRun "HF".data "60000000".data "C!".data 5 =
      Except.error "Country/regional code must be 2 alphanumeric characters." ∧
    mainRun "HF".data "60000000".data "CN".data 0 =
      Except.error "Quantity must be a positive integer." := by
  refine ⟨?_, rfl, rfl, rfl, rfl⟩
  intro si sn cc q
  unfold mainRun
  split_ifs with h1 h2 h3 h4
  · refine iff_of_true ⟨_, rfl⟩ ?_
    rintro ⟨a, b, -⟩
    rcases h1 with h | h
    · exact h a
    · exact h b
  · refine iff_of_true ⟨_, rfl⟩ ?_
    rintro ⟨-, -, a, b, -⟩
    rcases h2 with h | h
    · exact h a
    · exact h b
  · refine iff_of_true ⟨_, rfl⟩ ?_
    rintro ⟨-, -, -, -, a, b, -⟩
    rcases h3 with h | h
    · exact h a
    · exact h b
  · refine iff_of_true ⟨_, rfl⟩ ?_
    rintro ⟨-, -, -, -, -, -, a⟩
    omega
  · refine iff_of_false ?_ ?_
    · rintro ⟨e, he⟩
      exact he
    · push_neg at h1 h2 h3 h4
      intro hc
      exact hc ⟨h1.1, h1.2, h2.1, h2.2, h3.1, h3.2, by omega⟩

/-- Witness for C9 at the rejected indicator `A1`. -/
theorem validation_rejects_witness :
    ∃ e, mainRun "A1".data "60000000".data "CN".data 5 = Except.error e :=
  (validation_rejects.1 "A1".data "60000000".data "CN".data 5).mpr (by
    rintro ⟨-, hb, -⟩
    exact absurd hb (by decide))

/-- Witness for C5 at the 7-character string `1234567`. -/
theorem checksum_error_iff_witness :
    ∃ e, calculate_s10_checksum "1234567".data = Except.error e :=
  (checksum_error_iff "1234567".data).mpr (Or.inl (by decide))
